import Mathlib

/-!
Shallow embedding of `src/main.c` of the RTC periodic-wakeup firmware
(Infineon code example CE240527) and proofs about its control loop.

The embedding follows the source file:
* the status enumerations mirror `cy_en_rtc_status_t` and `cy_en_syspm_status_t`;
* `get_switch_event` mirrors the press classification (lines 401-409);
* `retryAux` mirrors the shared do-while retry loop used by `rtc_init`
  (lines 312-329) and `rtc_alarmconfig` (lines 350-368); the peripheral is
  modelled as a function from the attempt index to the outcome of that attempt;
* `loopBody` records, as a list of observable actions, what one iteration of
  the `for(;;)` loop in `main` (lines 261-296) does for a given classified
  event, peripheral behaviour, and result of `Cy_SysPm_SystemEnterHibernate`;
* `startupTrace` records what the startup path of `main` (lines 214-259) does;
* `convert_date_to_string` / `debug_printf` mirror the string formatting
  (lines 430-483), with C strings rendered as `List Char` and `sprintf`'s
  `"%d"` rendering modelled by `Nat.toDigits 10`;
* the accesses to the global `alarm_flag` (declared line 105, written by
  `Cy_RTC_Alarm2Interrupt` line 525, and nowhere else referenced) are recorded
  by the `FlagAccess` lists.
-/

namespace RtcPeriodicWakeup

/-- `cy_en_rtc_status_t`: outcome of an RTC operation (PDL enumeration). -/
inductive cy_en_rtc_status_t
  | CY_RTC_SUCCESS
  | CY_RTC_BAD_PARAM
  | CY_RTC_TIMEOUT
  | CY_RTC_INVALID_STATE
  | CY_RTC_UNKNOWN
deriving DecidableEq

/-- `cy_en_syspm_status_t`: outcome of a SysPm operation (PDL enumeration). -/
inductive cy_en_syspm_status_t
  | CY_SYSPM_SUCCESS
  | CY_SYSPM_BAD_PARAMETER
  | CY_SYSPM_TIMEOUT
  | CY_SYSPM_INVALID_STATE
  | CY_SYSPM_CANCELED
  | CY_SYSPM_FAIL
deriving DecidableEq

/-- `en_switch_event_t` (main.c lines 81-86). -/
inductive en_switch_event_t
  | SWITCH_NO_EVENT
  | SWITCH_SHORT_PRESS
  | SWITCH_LONG_PRESS
deriving DecidableEq

/-- `MAX_ATTEMPTS` (main.c line 55). -/
def MAX_ATTEMPTS : Nat := 500

/-- `INIT_DELAY_MS` (main.c line 56). -/
def INIT_DELAY_MS : Nat := 5

/-- `SHORT_PRESS_COUNT` (main.c line 59). -/
def SHORT_PRESS_COUNT : Nat := 10

/-- `LONG_PRESS_COUNT` (main.c line 60). -/
def LONG_PRESS_COUNT : Nat := 200

/-- `SHORT_GLITCH_DELAY_MS` (main.c line 63). -/
def SHORT_GLITCH_DELAY_MS : Nat := 10

/-- `LONG_GLITCH_DELAY_MS` (main.c line 64). -/
def LONG_GLITCH_DELAY_MS : Nat := 100

/-- `STRING_BUFFER_SIZE` (main.c line 75). -/
def STRING_BUFFER_SIZE : Nat := 80

/-- Press classification from `get_switch_event` (main.c lines 401-409):
the measurement loop has accumulated `press_count` quanta of 10 ms each;
`press_count > LONG_PRESS_COUNT` gives a long press, otherwise
`press_count > SHORT_PRESS_COUNT` gives a short press, otherwise no event. -/
def get_switch_event (press_count : Nat) : en_switch_event_t :=
  if press_count > LONG_PRESS_COUNT then .SWITCH_LONG_PRESS
  else if press_count > SHORT_PRESS_COUNT then .SWITCH_SHORT_PRESS
  else .SWITCH_NO_EVENT

/-- The shared do-while retry loop of `rtc_init` (main.c lines 319-325) and
`rtc_alarmconfig` (main.c lines 360-365):

    do { rtc_result = op(); attempts--; delay; }
    while ((rtc_result != CY_RTC_SUCCESS) && (attempts != 0u));

`op i` is the outcome the peripheral gives to the i-th call (0-based).
The result is the final `rtc_result` together with the number of calls made.
Both call sites enter with `attempts = MAX_ATTEMPTS = 500 ≥ 1`, so the
`attempts = 0` case below is never reached from the embedded entry points. -/
def retryAux (op : Nat → cy_en_rtc_status_t) : Nat → Nat → cy_en_rtc_status_t × Nat
  | i, 0 => (op i, i + 1)
  | i, a + 1 =>
    if op i ≠ cy_en_rtc_status_t.CY_RTC_SUCCESS ∧ a ≠ 0 then
      retryAux op (i + 1) a
    else
      (op i, i + 1)

/-- `rtc_init` (main.c lines 312-329): bounded retry of `Cy_RTC_Init`,
returning the final status. -/
def rtc_init (initOp : Nat → cy_en_rtc_status_t) : cy_en_rtc_status_t :=
  (retryAux initOp 0 MAX_ATTEMPTS).1

/-- Number of `Cy_RTC_Init` calls `rtc_init` makes. -/
def rtc_initAttempts (initOp : Nat → cy_en_rtc_status_t) : Nat :=
  (retryAux initOp 0 MAX_ATTEMPTS).2

/-- `rtc_alarmconfig` (main.c lines 350-368): bounded retry of
`Cy_RTC_SetAlarmDateAndTime`, returning the final status. -/
def rtc_alarmconfig (setAlarmOp : Nat → cy_en_rtc_status_t) : cy_en_rtc_status_t :=
  (retryAux setAlarmOp 0 MAX_ATTEMPTS).1

/-- Number of `Cy_RTC_SetAlarmDateAndTime` calls `rtc_alarmconfig` makes. -/
def rtc_alarmconfigAttempts (setAlarmOp : Nat → cy_en_rtc_status_t) : Nat :=
  (retryAux setAlarmOp 0 MAX_ATTEMPTS).2

/-- Observable actions of the control loop and startup path of `main`. -/
inductive Action
  | printfLine (msg : String)
  | logLine (msg : String)
  | armReturn (outcome : cy_en_rtc_status_t)
  | delay (ms : Nat)
  | enterDeepSleep
  | setHibernateWakeupSource
  | enterHibernate (result : cy_en_syspm_status_t)
  | disableIrq
  | assertHalt
deriving DecidableEq

/-- `handle_error` (main.c lines 144-149): `__disable_irq(); CY_ASSERT(0);`. -/
def handle_error_trace : List Action :=
  [Action.disableIrq, Action.assertHalt]

/-- One iteration of the `for(;;)` loop in `main` (main.c lines 261-296),
as the list of actions it performs, given the classified event `ev`, the
per-attempt behaviour `setAlarmOp` of `Cy_RTC_SetAlarmDateAndTime`, and the
result `hibResult` of `Cy_SysPm_SystemEnterHibernate`.

`Action.logLine` records a `debug_printf` call with the message passed to it
(the line printed is timestamp-prefixed, see `debug_printf` below);
`Action.printfLine` records a raw `printf`.  The message
"RTC alarm will be generated after 1 second\r\n" is printed inside
`rtc_alarmconfig` (main.c line 356) before its retry loop; the call is
recorded as `Action.armReturn` carrying the status it returns, which `main`
ignores.  On `CY_SYSPM_SUCCESS` the hibernate instruction does not return,
so the iteration's trace ends there. -/
def loopBody (ev : en_switch_event_t) (setAlarmOp : Nat → cy_en_rtc_status_t)
    (hibResult : cy_en_syspm_status_t) : List Action :=
  match ev with
  | .SWITCH_SHORT_PRESS =>
      [Action.logLine "Go to DeepSleep mode\r\n",
       Action.logLine "RTC alarm will be generated after 1 second\r\n",
       Action.armReturn (rtc_alarmconfig setAlarmOp),
       Action.delay LONG_GLITCH_DELAY_MS,
       Action.enterDeepSleep,
       Action.logLine "Wakeup from DeepSleep mode\r\n"]
  | .SWITCH_LONG_PRESS =>
      [Action.logLine "Go to Hibernate mode\r\n",
       Action.logLine "RTC alarm will be generated after 1 second\r\n",
       Action.armReturn (rtc_alarmconfig setAlarmOp),
       Action.delay LONG_GLITCH_DELAY_MS,
       Action.setHibernateWakeupSource,
       Action.enterHibernate hibResult]
      ++ (match hibResult with
          | .CY_SYSPM_SUCCESS => []
          | _ => [Action.printfLine "The CPU did not enter Hibernate mode\r\n\r\n",
                  Action.assertHalt])
  | .SWITCH_NO_EVENT => []

/-- `true` for the retentive-sleep and power-down instructions
(`Cy_SysPm_CpuEnterDeepSleep`, `Cy_SysPm_SystemEnterHibernate`). -/
def isSleepInstr : Action → Bool
  | .enterDeepSleep => true
  | .enterHibernate _ => true
  | _ => false

/-- `true` for the return of the alarm-arming call, whatever its outcome. -/
def isArmReturn : Action → Bool
  | .armReturn _ => true
  | _ => false

/-- `true` for the return of the alarm-arming call with `CY_RTC_SUCCESS`. -/
def isArmSuccess : Action → Bool
  | .armReturn s => s == cy_en_rtc_status_t.CY_RTC_SUCCESS
  | _ => false

/-- `sleepOnlyAfter p seen l = true` iff, scanning `l` left to right starting
with `seen` recording whether an action satisfying `p` has already occurred,
every sleep/power-down instruction in `l` is strictly preceded by an action
satisfying `p`. -/
def sleepOnlyAfter (p : Action → Bool) : Bool → List Action → Bool
  | _, [] => true
  | seen, a :: rest => (!isSleepInstr a || seen) && sleepOnlyAfter p (seen || p a) rest

/-- `noneAfterSleep p l = true` iff no action satisfying `p` occurs at a
position strictly after a sleep/power-down instruction in `l`. -/
def noneAfterSleep (p : Action → Bool) : List Action → Bool
  | [] => true
  | a :: rest =>
      (!isSleepInstr a || rest.all (fun b => !p b)) && noneAfterSleep p rest

/-- Peripheral stub that always fails with `CY_RTC_TIMEOUT`. -/
def op_alwaysTimeout : Nat → cy_en_rtc_status_t := fun _ => .CY_RTC_TIMEOUT

/-- Peripheral stub that fails with `CY_RTC_INVALID_STATE` on the first three
calls and succeeds from the fourth on. -/
def op_fail3 : Nat → cy_en_rtc_status_t := fun j =>
  if j < 3 then .CY_RTC_INVALID_STATE else .CY_RTC_SUCCESS

/-- Peripheral stub that always succeeds. -/
def op_alwaysSuccess : Nat → cy_en_rtc_status_t := fun _ => .CY_RTC_SUCCESS

/-! ### Helper lemmas about the retry loop -/

/-- If the first `k` calls fail and call `k` succeeds, with `k` within the
budget, the retry loop stops at call `k` with `CY_RTC_SUCCESS`. -/
theorem retryAux_firstSuccess (op : Nat → cy_en_rtc_status_t) :
    ∀ a k i, k < a →
      (∀ j, j < k → op (i + j) ≠ cy_en_rtc_status_t.CY_RTC_SUCCESS) →
      op (i + k) = cy_en_rtc_status_t.CY_RTC_SUCCESS →
      retryAux op i a = (cy_en_rtc_status_t.CY_RTC_SUCCESS, i + k + 1) := by
  intro a
  induction a with
  | zero => intro k i hk; omega
  | succ a ih =>
    intro k i hk hfail hsucc
    cases k with
    | zero =>
      have h0 : op i = cy_en_rtc_status_t.CY_RTC_SUCCESS := by simpa using hsucc
      simp [retryAux, h0]
    | succ k' =>
      have h0 : op i ≠ cy_en_rtc_status_t.CY_RTC_SUCCESS := by
        have := hfail 0 (Nat.succ_pos k')
        simpa using this
      have ha : a ≠ 0 := by omega
      rw [retryAux, if_pos ⟨h0, ha⟩]
      have hfail' : ∀ j, j < k' → op (i + 1 + j) ≠ cy_en_rtc_status_t.CY_RTC_SUCCESS := by
        intro j hj
        have := hfail (j + 1) (by omega)
        have he : i + (j + 1) = i + 1 + j := by omega
        rwa [he] at this
      have hsucc' : op (i + 1 + k') = cy_en_rtc_status_t.CY_RTC_SUCCESS := by
        have he : i + (k' + 1) = i + 1 + k' := by omega
        rwa [he] at hsucc
      have := ih k' (i + 1) (by omega) hfail' hsucc'
      rw [this]
      have he : i + 1 + k' + 1 = i + (k' + 1) + 1 := by omega
      rw [he]

/-- If every call fails, the retry loop makes exactly `a + 1` calls and
returns the outcome of the last one. -/
theorem retryAux_allFail (op : Nat → cy_en_rtc_status_t)
    (hop : ∀ j, op j ≠ cy_en_rtc_status_t.CY_RTC_SUCCESS) :
    ∀ a i, retryAux op i (a + 1) = (op (i + a), i + a + 1) := by
  intro a
  induction a with
  | zero => intro i; simp [retryAux]
  | succ a ih =>
    intro i
    rw [retryAux, if_pos ⟨hop i, Nat.succ_ne_zero a⟩, ih (i + 1)]
    have h1 : i + 1 + a = i + (a + 1) := by omega
    rw [h1]

/-- With an always-failing peripheral, `rtc_alarmconfig` returns the outcome
of the 500th (last) call, having made exactly 500 calls. -/
theorem rtc_alarmconfig_allFail (op : Nat → cy_en_rtc_status_t)
    (hop : ∀ j, op j ≠ cy_en_rtc_status_t.CY_RTC_SUCCESS) :
    rtc_alarmconfig op = op 499 ∧ rtc_alarmconfigAttempts op = 500 := by
  have h : retryAux op 0 MAX_ATTEMPTS = (op 499, 500) := by
    have := retryAux_allFail op hop 499 0
    simpa [MAX_ATTEMPTS] using this
  constructor
  · simp [rtc_alarmconfig, h]
  · simp [rtc_alarmconfigAttempts, h]

/-- `rtc_alarmconfig` of the always-timeout stub returns `CY_RTC_TIMEOUT`. -/
theorem rtc_alarmconfig_timeout :
    rtc_alarmconfig op_alwaysTimeout = cy_en_rtc_status_t.CY_RTC_TIMEOUT := by
  have := rtc_alarmconfig_allFail op_alwaysTimeout (fun j => by simp [op_alwaysTimeout])
  simpa [op_alwaysTimeout] using this.1

/-! ### Claim C4: press classification -/

/-- C4: press classification is a total deterministic function of the measured
duration `d` in 10 ms quanta: `d > 200` yields a long press, otherwise
`d > 10` yields a short press, otherwise no event; thresholds are strict, so
`d = 0` and `d = 10` give no event, `d = 11` and `d = 200` give a short press,
and `d = 201` gives a long press. -/
theorem claim_C4_classification :
    (∀ d : Nat,
      (get_switch_event d = .SWITCH_LONG_PRESS ↔ 200 < d)
      ∧ (get_switch_event d = .SWITCH_SHORT_PRESS ↔ 10 < d ∧ d ≤ 200)
      ∧ (get_switch_event d = .SWITCH_NO_EVENT ↔ d ≤ 10))
    ∧ get_switch_event 0 = .SWITCH_NO_EVENT
    ∧ get_switch_event 10 = .SWITCH_NO_EVENT
    ∧ get_switch_event 11 = .SWITCH_SHORT_PRESS
    ∧ get_switch_event 200 = .SWITCH_SHORT_PRESS
    ∧ get_switch_event 201 = .SWITCH_LONG_PRESS := by
  refine ⟨fun d => ?_, by decide, by decide, by decide, by decide, by decide⟩
  unfold get_switch_event SHORT_PRESS_COUNT LONG_PRESS_COUNT
  split_ifs with h1 h2 <;>
    refine ⟨?_, ?_, ?_⟩ <;> simp <;> omega

/-! ### Claim C5: bounded retry protocol -/

/-- C5: the bounded-retry arming operation terminates after at most 500
attempts: with a peripheral that fails exactly `k < 500` times then succeeds
it returns `CY_RTC_SUCCESS` having made exactly `k + 1` attempts; with one
that always fails it returns the outcome of the last (500th) attempt having
made exactly 500 attempts.  The same protocol governs `rtc_init`. -/
theorem claim_C5_bounded_retry (op opFail : Nat → cy_en_rtc_status_t) (k : Nat)
    (hk : k < 500)
    (hfail : ∀ j, j < k → op j ≠ cy_en_rtc_status_t.CY_RTC_SUCCESS)
    (hsucc : op k = cy_en_rtc_status_t.CY_RTC_SUCCESS)
    (hallfail : ∀ j, opFail j ≠ cy_en_rtc_status_t.CY_RTC_SUCCESS) :
    (rtc_alarmconfig op = cy_en_rtc_status_t.CY_RTC_SUCCESS
      ∧ rtc_alarmconfigAttempts op = k + 1)
    ∧ (rtc_alarmconfig opFail = opFail 499 ∧ rtc_alarmconfigAttempts opFail = 500)
    ∧ (rtc_init op = cy_en_rtc_status_t.CY_RTC_SUCCESS
      ∧ rtc_initAttempts op = k + 1)
    ∧ (rtc_init opFail = opFail 499 ∧ rtc_initAttempts opFail = 500) := by
  have hs : retryAux op 0 MAX_ATTEMPTS = (cy_en_rtc_status_t.CY_RTC_SUCCESS, k + 1) := by
    have := retryAux_firstSuccess op MAX_ATTEMPTS k 0
      (by simpa [MAX_ATTEMPTS] using hk)
      (by intro j hj; simpa using hfail j hj)
      (by simpa using hsucc)
    simpa using this
  have hf : retryAux opFail 0 MAX_ATTEMPTS = (opFail 499, 500) := by
    have := retryAux_allFail opFail hallfail 499 0
    simpa [MAX_ATTEMPTS] using this
  refine ⟨⟨?_, ?_⟩, ⟨?_, ?_⟩, ⟨?_, ?_⟩, ⟨?_, ?_⟩⟩ <;>
    simp [rtc_alarmconfig, rtc_alarmconfigAttempts, rtc_init, rtc_initAttempts, hs, hf]

/-- Witness for C5 at a stub failing exactly three times and an always-failing
stub. -/
theorem claim_C5_bounded_retry_witness :
    (rtc_alarmconfig op_fail3 = cy_en_rtc_status_t.CY_RTC_SUCCESS
      ∧ rtc_alarmconfigAttempts op_fail3 = 4)
    ∧ (rtc_alarmconfig op_alwaysTimeout = op_alwaysTimeout 499
      ∧ rtc_alarmconfigAttempts op_alwaysTimeout = 500)
    ∧ (rtc_init op_fail3 = cy_en_rtc_status_t.CY_RTC_SUCCESS
      ∧ rtc_initAttempts op_fail3 = 4)
    ∧ (rtc_init op_alwaysTimeout = op_alwaysTimeout 499
      ∧ rtc_initAttempts op_alwaysTimeout = 500) :=
  claim_C5_bounded_retry op_fail3 op_alwaysTimeout 3 (by decide)
    (by decide) (by decide) (fun j => by simp [op_alwaysTimeout])

/-! ### Claim C1: failed arming is not treated as fatal by the loop -/

/-- C1 (code evaluated at the failing input): with a peripheral whose
`Cy_RTC_SetAlarmDateAndTime` fails with `CY_RTC_TIMEOUT` on every one of the
500 attempts, `rtc_alarmconfig` returns `CY_RTC_TIMEOUT`, yet the loop
iteration still issues the deep-sleep instruction (short press) and the
power-down instruction (long press), and performs neither an
interrupt-disable nor an assertion halt: `main` ignores the value returned by
`rtc_alarmconfig` (main.c lines 269 and 281). -/
theorem claim_C1_arming_failure_not_fatal :
    rtc_alarmconfig op_alwaysTimeout = cy_en_rtc_status_t.CY_RTC_TIMEOUT
    ∧ Action.enterDeepSleep
        ∈ loopBody .SWITCH_SHORT_PRESS op_alwaysTimeout .CY_SYSPM_SUCCESS
    ∧ Action.enterHibernate .CY_SYSPM_SUCCESS
        ∈ loopBody .SWITCH_LONG_PRESS op_alwaysTimeout .CY_SYSPM_SUCCESS
    ∧ Action.disableIrq ∉ loopBody .SWITCH_SHORT_PRESS op_alwaysTimeout .CY_SYSPM_SUCCESS
    ∧ Action.assertHalt ∉ loopBody .SWITCH_SHORT_PRESS op_alwaysTimeout .CY_SYSPM_SUCCESS := by
  refine ⟨rtc_alarmconfig_timeout, ?_, ?_, ?_, ?_⟩ <;>
    simp [loopBody, rtc_alarmconfig_timeout]

/-! ### Claim C2: ordering of arming and sleep -/

/-- C2 counterexample: with an always-failing peripheral and a short press,
the deep-sleep instruction is issued although no arming attempt in that cycle
returned `CY_RTC_SUCCESS`, so the sleep instruction is not issued "only after
the Alarm Scheduler has returned Success for that cycle". -/
theorem claim_C2_counterexample :
    sleepOnlyAfter isArmSuccess false
      (loopBody .SWITCH_SHORT_PRESS op_alwaysTimeout .CY_SYSPM_SUCCESS) = false := by
  simp [loopBody, rtc_alarmconfig_timeout, sleepOnlyAfter, isSleepInstr,
    isArmSuccess]

/-- C2 (amended): in every cycle the sleep/power-down instruction is issued
only after the arming call `rtc_alarmconfig` has returned — the arming call
strictly precedes the sleep instruction of the same cycle — but not
necessarily with `CY_RTC_SUCCESS`; and an alarm-armed-successfully event
never occurs after the sleep/power-down instruction of the same cycle. -/
theorem claim_C2_ordering (ev : en_switch_event_t)
    (setAlarmOp : Nat → cy_en_rtc_status_t) (hibResult : cy_en_syspm_status_t) :
    sleepOnlyAfter isArmReturn false (loopBody ev setAlarmOp hibResult) = true
    ∧ noneAfterSleep isArmSuccess (loopBody ev setAlarmOp hibResult) = true := by
  cases ev <;> cases hibResult <;>
    simp [loopBody, sleepOnlyAfter, noneAfterSleep, isSleepInstr, isArmReturn,
      isArmSuccess]

/-! ### Claim C6: exclusive event routing -/

/-- C6: event routing is exclusive: a short press leads to the deep-sleep
path (arming then `Cy_SysPm_CpuEnterDeepSleep`) and never to the power-down
instruction; a long press leads to the power-down path and never to the
deep-sleep instruction; no event performs no action at all — no arming and
no power-state transition. -/
theorem claim_C6_exclusive_routing (setAlarmOp : Nat → cy_en_rtc_status_t)
    (hibResult : cy_en_syspm_status_t) :
    (Action.armReturn (rtc_alarmconfig setAlarmOp)
        ∈ loopBody .SWITCH_SHORT_PRESS setAlarmOp hibResult
      ∧ Action.enterDeepSleep ∈ loopBody .SWITCH_SHORT_PRESS setAlarmOp hibResult
      ∧ (∀ s, Action.enterHibernate s ∉ loopBody .SWITCH_SHORT_PRESS setAlarmOp hibResult))
    ∧ (Action.armReturn (rtc_alarmconfig setAlarmOp)
        ∈ loopBody .SWITCH_LONG_PRESS setAlarmOp hibResult
      ∧ Action.enterHibernate hibResult ∈ loopBody .SWITCH_LONG_PRESS setAlarmOp hibResult
      ∧ Action.enterDeepSleep ∉ loopBody .SWITCH_LONG_PRESS setAlarmOp hibResult)
    ∧ loopBody .SWITCH_NO_EVENT setAlarmOp hibResult = [] := by
  refine ⟨⟨?_, ?_, fun s => ?_⟩, ⟨?_, ?_, ?_⟩, ?_⟩ <;>
    cases hibResult <;> simp [loopBody]

/-! ### Claim C7: rejected power-down instruction -/

/-- C7 counterexample: when `Cy_SysPm_SystemEnterHibernate` is rejected, the
code does not follow the `handle_error` fail-stop (disable interrupts, then
assert-halt): after the diagnostic `printf` it calls `CY_ASSERT(0)` directly
(main.c lines 286-290), and no interrupt-disable occurs in the cycle. -/
theorem claim_C7_counterexample :
    ¬ ∃ l, loopBody .SWITCH_LONG_PRESS op_alwaysSuccess .CY_SYSPM_FAIL
        = l ++ [Action.printfLine "The CPU did not enter Hibernate mode\r\n\r\n"]
            ++ handle_error_trace := by
  rintro ⟨l, h⟩
  have hmem : Action.disableIrq
      ∈ loopBody .SWITCH_LONG_PRESS op_alwaysSuccess .CY_SYSPM_FAIL := by
    rw [h]
    simp [handle_error_trace]
  have hno : Action.disableIrq
      ∉ loopBody .SWITCH_LONG_PRESS op_alwaysSuccess .CY_SYSPM_FAIL := by
    simp [loopBody]
  exact hno hmem

/-- C7 (amended): if `Cy_SysPm_SystemEnterHibernate` returns a non-success
status, the cycle ends with the diagnostic line
"The CPU did not enter Hibernate mode" followed by an assertion halt and
nothing after it — no further transitions — but, unlike the `handle_error`
fail-stop used for the other fatal errors, interrupts are not disabled
first. -/
theorem claim_C7_hibernate_reject (setAlarmOp : Nat → cy_en_rtc_status_t)
    (hibResult : cy_en_syspm_status_t)
    (h : hibResult ≠ cy_en_syspm_status_t.CY_SYSPM_SUCCESS) :
    (∃ l, loopBody .SWITCH_LONG_PRESS setAlarmOp hibResult
        = l ++ [Action.enterHibernate hibResult,
                Action.printfLine "The CPU did not enter Hibernate mode\r\n\r\n",
                Action.assertHalt])
    ∧ Action.disableIrq ∉ loopBody .SWITCH_LONG_PRESS setAlarmOp hibResult := by
  cases hibResult with
  | CY_SYSPM_SUCCESS => exact absurd rfl h
  | CY_SYSPM_BAD_PARAMETER =>
      exact ⟨⟨[Action.logLine "Go to Hibernate mode\r\n",
        Action.logLine "RTC alarm will be generated after 1 second\r\n",
        Action.armReturn (rtc_alarmconfig setAlarmOp),
        Action.delay LONG_GLITCH_DELAY_MS,
        Action.setHibernateWakeupSource], rfl⟩, by simp [loopBody]⟩
  | CY_SYSPM_TIMEOUT =>
      exact ⟨⟨[Action.logLine "Go to Hibernate mode\r\n",
        Action.logLine "RTC alarm will be generated after 1 second\r\n",
        Action.armReturn (rtc_alarmconfig setAlarmOp),
        Action.delay LONG_GLITCH_DELAY_MS,
        Action.setHibernateWakeupSource], rfl⟩, by simp [loopBody]⟩
  | CY_SYSPM_INVALID_STATE =>
      exact ⟨⟨[Action.logLine "Go to Hibernate mode\r\n",
        Action.logLine "RTC alarm will be generated after 1 second\r\n",
        Action.armReturn (rtc_alarmconfig setAlarmOp),
        Action.delay LONG_GLITCH_DELAY_MS,
        Action.setHibernateWakeupSource], rfl⟩, by simp [loopBody]⟩
  | CY_SYSPM_CANCELED =>
      exact ⟨⟨[Action.logLine "Go to Hibernate mode\r\n",
        Action.logLine "RTC alarm will be generated after 1 second\r\n",
        Action.armReturn (rtc_alarmconfig setAlarmOp),
        Action.delay LONG_GLITCH_DELAY_MS,
        Action.setHibernateWakeupSource], rfl⟩, by simp [loopBody]⟩
  | CY_SYSPM_FAIL =>
      exact ⟨⟨[Action.logLine "Go to Hibernate mode\r\n",
        Action.logLine "RTC alarm will be generated after 1 second\r\n",
        Action.armReturn (rtc_alarmconfig setAlarmOp),
        Action.delay LONG_GLITCH_DELAY_MS,
        Action.setHibernateWakeupSource], rfl⟩, by simp [loopBody]⟩

/-- Witness for C7 at an always-succeeding peripheral and a rejected
hibernate request. -/
theorem claim_C7_hibernate_reject_witness :
    (∃ l, loopBody .SWITCH_LONG_PRESS op_alwaysSuccess .CY_SYSPM_FAIL
        = l ++ [Action.enterHibernate .CY_SYSPM_FAIL,
                Action.printfLine "The CPU did not enter Hibernate mode\r\n\r\n",
                Action.assertHalt])
    ∧ Action.disableIrq ∉ loopBody .SWITCH_LONG_PRESS op_alwaysSuccess .CY_SYSPM_FAIL :=
  claim_C7_hibernate_reject op_alwaysSuccess .CY_SYSPM_FAIL (by simp)

/-! ### Claim C3: the wake signal flag -/

/-- Kinds of access to the global `alarm_flag`. -/
inductive FlagAccess
  | set
  | clear
  | read
deriving DecidableEq

/-- Accesses to `alarm_flag` performed by `Cy_RTC_Alarm2Interrupt`
(main.c lines 522-526): its sole action is `alarm_flag = 1u`. -/
def Cy_RTC_Alarm2Interrupt_accesses : List FlagAccess := [.set]

/-- Accesses to `alarm_flag` performed by one iteration of the `for(;;)`
loop of `main` (main.c lines 261-296): the loop body never mentions
`alarm_flag`, so the list is empty. -/
def main_loop_accesses : List FlagAccess := []

/-- Initial value of `alarm_flag` (main.c line 105: `uint8_t alarm_flag = 0u`). -/
def alarm_flag_init : Bool := false

/-- Effect of one access on the flag. -/
def applyFlagAccess (flag : Bool) : FlagAccess → Bool
  | .set => true
  | .clear => false
  | .read => flag

/-- Value of the flag after a sequence of accesses. -/
def runFlagAccesses (flag : Bool) (l : List FlagAccess) : Bool :=
  l.foldl applyFlagAccess flag

/-- C3 counterexample: the control loop contains no clear (and no read) of
`alarm_flag`, and after the interrupt handler sets the flag a subsequent loop
iteration leaves it `true` — the loop does not clear the flag back to `false`
after a consumption, so the flag is not `true` only strictly between a set
and a corresponding clear. -/
theorem claim_C3_counterexample :
    FlagAccess.clear ∉ main_loop_accesses
    ∧ FlagAccess.read ∉ main_loop_accesses
    ∧ runFlagAccesses alarm_flag_init
        (Cy_RTC_Alarm2Interrupt_accesses ++ main_loop_accesses ++ main_loop_accesses)
      = true := by
  decide

/-- C3 (amended): the interrupt handler's sole action on `alarm_flag` is to
set it to `true`, the flag is `false` at startup, and the control loop never
reads or clears it: after the handler sets the flag, any number of loop
iterations leaves it `true` for the rest of execution. -/
theorem claim_C3_flag_latch (n : Nat) :
    Cy_RTC_Alarm2Interrupt_accesses = [FlagAccess.set]
    ∧ alarm_flag_init = false
    ∧ main_loop_accesses = []
    ∧ runFlagAccesses alarm_flag_init
        (Cy_RTC_Alarm2Interrupt_accesses ++ (List.replicate n main_loop_accesses).flatten)
      = true := by
  refine ⟨rfl, rfl, rfl, ?_⟩
  have h : (List.replicate n main_loop_accesses).flatten = [] := by
    induction n with
    | zero => rfl
    | succ n ih => simp [List.replicate_succ, main_loop_accesses, ih]
  simp [h, runFlagAccesses, Cy_RTC_Alarm2Interrupt_accesses, alarm_flag_init,
    applyFlagAccess]

/-! ### Claim C8: timestamp prefix of status lines -/

/-- The fields of `cy_stc_rtc_config_t` read by `convert_date_to_string`
(main.c lines 461-467). -/
structure cy_stc_rtc_config_t where
  sec : Nat
  min : Nat
  hour : Nat
  date : Nat
  month : Nat
  year : Nat
deriving DecidableEq

/-- `sprintf(buf, "%d", n)`: the decimal rendering of `n` as characters
(main.c lines 471-476). -/
def sprintf_d (n : Nat) : List Char := Nat.toDigits 10 n

/-- `convert_date_to_string` (main.c lines 458-483):

    snprintf(buffer, sizeof(buffer), "%s %s %s %s %s %s %s %s %s %s %s",
            hourbuf, ":", minbuf, ":", secbuf, "", yearbuf, "-", monthbuf,
            "-", daybuf);

the eleven arguments joined by single spaces, truncated by `snprintf` to
`sizeof(buffer) - 1 = 79` characters. -/
def convert_date_to_string (dateTime : cy_stc_rtc_config_t) : List Char :=
  (sprintf_d dateTime.hour ++ [' '] ++ [':'] ++ [' ']
    ++ sprintf_d dateTime.min ++ [' '] ++ [':'] ++ [' ']
    ++ sprintf_d dateTime.sec ++ [' '] ++ ([] : List Char) ++ [' ']
    ++ sprintf_d dateTime.year ++ [' '] ++ ['-'] ++ [' ']
    ++ sprintf_d dateTime.month ++ [' '] ++ ['-'] ++ [' ']
    ++ sprintf_d dateTime.date).take (STRING_BUFFER_SIZE - 1)

/-- `debug_printf` (main.c lines 430-442): reads the current date and time
`dateTime` from the RTC, renders it into `buffer`, then prints
`printf("%s: %s\r\n", buffer, str)`. -/
def debug_printf (dateTime : cy_stc_rtc_config_t) (str : List Char) : List Char :=
  convert_date_to_string dateTime ++ [':', ' '] ++ str ++ ['\r', '\n']

/-- Two-digit zero-padded decimal rendering, used only to state the claimed
format. -/
def pad2 (n : Nat) : List Char :=
  if n < 10 then '0' :: Nat.toDigits 10 n else Nat.toDigits 10 n

/-- Modelled from the spec: the claimed displayed-line format
`HH:MM:SS: <message>` — hour, colon, minute, colon, second, then a colon and
a space, then the message text. -/
def claimed_status_line (dateTime : cy_stc_rtc_config_t) (str : List Char) : List Char :=
  pad2 dateTime.hour ++ [':'] ++ pad2 dateTime.min ++ [':'] ++ pad2 dateTime.sec
    ++ [':', ' '] ++ str

/-- C8 counterexample: at 10:30:05 (and date 2024-09-06) the line printed for
"Go to DeepSleep mode" is `10 : 30 : 5  24 - 9 - 6: Go to DeepSleep mode`,
not the claimed `HH:MM:SS: <message>` line: the fields are space-separated
and unpadded, and the computed date fields appear between the timestamp and
the message. -/
theorem claim_C8_counterexample :
    debug_printf ⟨5, 30, 10, 6, 9, 24⟩ ("Go to DeepSleep mode".toList)
      ≠ claimed_status_line ⟨5, 30, 10, 6, 9, 24⟩
          ("Go to DeepSleep mode".toList ++ ['\r', '\n']) := by
  decide

/-- Decimal renderings of values below 100 have at most two characters. -/
theorem sprintf_d_len_le_two : ∀ n, n < 100 → (Nat.toDigits 10 n).length ≤ 2 := by
  decide

/-- C8 (amended): for in-range RTC fields, every line written via
`debug_printf` carries the timestamp fields in the fixed order hour, colon,
minute, colon, second — but separated by spaces and without zero padding —
followed by the date fields (year - month - day), then a colon, a space, and
the message text. -/
theorem claim_C8_line_format (dateTime : cy_stc_rtc_config_t) (str : List Char)
    (hsec : dateTime.sec ≤ 59) (hmin : dateTime.min ≤ 59)
    (hhour : dateTime.hour ≤ 23) (hdate : dateTime.date ≤ 31)
    (hmonth : dateTime.month ≤ 12) (hyear : dateTime.year ≤ 99) :
    debug_printf dateTime str
      = sprintf_d dateTime.hour ++ [' '] ++ [':'] ++ [' ']
        ++ sprintf_d dateTime.min ++ [' '] ++ [':'] ++ [' ']
        ++ sprintf_d dateTime.sec ++ [' '] ++ ([] : List Char) ++ [' ']
        ++ sprintf_d dateTime.year ++ [' '] ++ ['-'] ++ [' ']
        ++ sprintf_d dateTime.month ++ [' '] ++ ['-'] ++ [' ']
        ++ sprintf_d dateTime.date
        ++ [':', ' '] ++ str ++ ['\r', '\n'] := by
  have h1 := sprintf_d_len_le_two dateTime.sec (by omega)
  have h2 := sprintf_d_len_le_two dateTime.min (by omega)
  have h3 := sprintf_d_len_le_two dateTime.hour (by omega)
  have h4 := sprintf_d_len_le_two dateTime.date (by omega)
  have h5 := sprintf_d_len_le_two dateTime.month (by omega)
  have h6 := sprintf_d_len_le_two dateTime.year (by omega)
  unfold debug_printf convert_date_to_string
  rw [List.take_of_length_le]
  simp only [List.length_append, sprintf_d, STRING_BUFFER_SIZE]
  simp only [List.length_cons, List.length_nil]
  omega

/-- Witness for C8 (amended) at 10:30:05 on 2024-09-06. -/
theorem claim_C8_line_format_witness :
    debug_printf ⟨5, 30, 10, 6, 9, 24⟩ ("Go to DeepSleep mode".toList)
      = sprintf_d (10 : Nat) ++ [' '] ++ [':'] ++ [' ']
        ++ sprintf_d (30 : Nat) ++ [' '] ++ [':'] ++ [' ']
        ++ sprintf_d (5 : Nat) ++ [' '] ++ ([] : List Char) ++ [' ']
        ++ sprintf_d (24 : Nat) ++ [' '] ++ ['-'] ++ [' ']
        ++ sprintf_d (9 : Nat) ++ [' '] ++ ['-'] ++ [' ']
        ++ sprintf_d (6 : Nat)
        ++ [':', ' '] ++ ("Go to DeepSleep mode".toList) ++ ['\r', '\n'] :=
  claim_C8_line_format ⟨5, 30, 10, 6, 9, 24⟩ ("Go to DeepSleep mode".toList)
    (by decide) (by decide) (by decide) (by decide) (by decide) (by decide)

/-! ### Claim C9: the hibernate-wakeup diagnostic at startup -/

/-- The raw `printf` banner emitted at startup (main.c lines 215-220). -/
def bannerTrace : List Action :=
  [Action.printfLine "\x1b[2J\x1b[;H",
   Action.printfLine "*************************************************************\r\n",
   Action.printfLine "PDL: RTC periodic wakeup alarm example\r\n",
   Action.printfLine "*************************************************************\r\n",
   Action.printfLine "Short press \x27SW2\x27 key to DeepSleep mode.\r\n\r\n",
   Action.printfLine "Long press \x27SW2\x27 key to Hibernate mode.\r\n\r\n"]

/-- The startup path of `main` after the board/UART bring-up (main.c lines
214-259): print the banner; if
`CY_SYSLIB_RESET_HIB_WAKEUP == (Cy_SysLib_GetResetReason() & CY_SYSLIB_RESET_HIB_WAKEUP)`
log "Wakeup from the Hibernate mode"; run `rtc_init` and on failure call
`handle_error`, otherwise log "Current date and time" and fall into the
`for(;;)` loop.  `resetReason` is the bitmask returned by
`Cy_SysLib_GetResetReason` and `hibMask` the value of
`CY_SYSLIB_RESET_HIB_WAKEUP`, both from the external platform. -/
def startupTrace (resetReason hibMask : Nat)
    (initOp : Nat → cy_en_rtc_status_t) : List Action :=
  bannerTrace
  ++ (if resetReason &&& hibMask = hibMask then
        [Action.logLine "Wakeup from the Hibernate mode\r\n\n"]
      else [])
  ++ (if rtc_init initOp ≠ cy_en_rtc_status_t.CY_RTC_SUCCESS then
        handle_error_trace
      else [Action.logLine "Current date and time\r\n"])

/-- A whole program run: the startup path followed, when `rtc_init`
succeeded, by the loop iterations; each element of `cycles` gives the
classified event, peripheral behaviour, and hibernate result of one
iteration of the `for(;;)` loop. -/
def programTrace (resetReason hibMask : Nat)
    (initOp : Nat → cy_en_rtc_status_t)
    (cycles : List (en_switch_event_t × (Nat → cy_en_rtc_status_t) × cy_en_syspm_status_t)) :
    List Action :=
  startupTrace resetReason hibMask initOp
  ++ (if rtc_init initOp ≠ cy_en_rtc_status_t.CY_RTC_SUCCESS then []
      else (cycles.map (fun c => loopBody c.1 c.2.1 c.2.2)).flatten)

/-- No loop iteration logs the hibernate-wakeup diagnostic. -/
theorem hibernate_wakeup_msg_not_in_loopBody (ev : en_switch_event_t)
    (setAlarmOp : Nat → cy_en_rtc_status_t) (hibResult : cy_en_syspm_status_t) :
    Action.logLine "Wakeup from the Hibernate mode\r\n\n"
      ∉ loopBody ev setAlarmOp hibResult := by
  cases ev <;> cases hibResult <;> simp [loopBody]

/-- C9: the startup path logs "Wakeup from the Hibernate mode" exactly for
the boots whose reset cause includes the hibernate-wakeup bit, and every
occurrence of that message lies in the startup segment of the program trace,
before any iteration of the control loop. -/
theorem claim_C9_hibernate_wakeup_log (resetReason hibMask : Nat)
    (initOp : Nat → cy_en_rtc_status_t)
    (cycles : List (en_switch_event_t × (Nat → cy_en_rtc_status_t) × cy_en_syspm_status_t)) :
    (Action.logLine "Wakeup from the Hibernate mode\r\n\n"
        ∈ startupTrace resetReason hibMask initOp
      ↔ resetReason &&& hibMask = hibMask)
    ∧ ∃ rest, programTrace resetReason hibMask initOp cycles
          = startupTrace resetReason hibMask initOp ++ rest
        ∧ Action.logLine "Wakeup from the Hibernate mode\r\n\n" ∉ rest := by
  constructor
  · by_cases hrr : resetReason &&& hibMask = hibMask <;>
      by_cases hinit : rtc_init initOp = cy_en_rtc_status_t.CY_RTC_SUCCESS <;>
      simp [startupTrace, bannerTrace, handle_error_trace, hrr, hinit]
  · refine ⟨_, rfl, ?_⟩
    by_cases hinit : rtc_init initOp = cy_en_rtc_status_t.CY_RTC_SUCCESS
    · rw [if_neg (by simp [hinit])]
      intro hmem
      rw [List.mem_flatten] at hmem
      obtain ⟨l, hl, hml⟩ := hmem
      rw [List.mem_map] at hl
      obtain ⟨c, hc, rfl⟩ := hl
      exact hibernate_wakeup_msg_not_in_loopBody c.1 c.2.1 c.2.2 hml
    · simp [hinit]

/-! ### Claim C10: the sprintf conversion buffers -/

/-- Bytes written by `sprintf(buf, "%d", n)`: the decimal digits plus the
terminating NUL. -/
def sprintf_d_bytes (n : Nat) : Nat := (sprintf_d n).length + 1

/-- The size of each local conversion buffer of `convert_date_to_string`
(main.c line 470: `char secbuf[2], minbuf[2], ...`). -/
def conversion_buffer_size : Nat := 2

/-- C10 evaluated at a failing input: the in-range seconds value 10 renders
as two digits, so `sprintf` writes three bytes (including the NUL) into the
two-byte conversion buffer — out of bounds.  (Values below 10 do fit.) -/
theorem claim_C10_sprintf_overflow :
    sprintf_d_bytes 10 = 3
    ∧ conversion_buffer_size = 2
    ∧ ¬ (sprintf_d_bytes 10 ≤ conversion_buffer_size)
    ∧ sprintf_d_bytes 9 ≤ conversion_buffer_size := by
  decide

end RtcPeriodicWakeup
